import Mathlib

/-!
# WildGuard detection-fusion core: a shallow embedding

Lean embedding of the detection fusion, alert-escalation and
visibility-gating core of the WildGuard backend
(`wildguard_backend/ml_services/late_fusion.py`,
`wildguard_backend/detection/detection_generator.py`,
`wildguard_backend/user_module/views.py`), with theorems settling the
specification's claims about it.

Confidences and weights are embedded as rationals (`ℚ`); Python's
`round(x, 4)` is embedded as round-half-to-even at four decimal places.
Python `dict` results become Lean structures, `None`-able arguments
become `Option`, and a raised `ValueError` becomes `Except.error`.
-/

namespace WildGuard

/-- Python's `round` to `n = 4` decimal digits uses banker's rounding
(round half to even) on the scaled value. -/
def roundHalfEven (q : ℚ) : ℤ :=
  let f : ℤ := q.num / (q.den : ℤ)
  let r : ℚ := q - f
  if r < 1/2 then f
  else if 1/2 < r then f + 1
  else if f % 2 = 0 then f else f + 1

/-- `round(x, 4)` from `late_fusion.py`. -/
def round4 (q : ℚ) : ℚ := (roundHalfEven (q * 10000) : ℚ) / 10000

/-- Input dict of the visual modality: keys `confidence`, `detected_object`. -/
structure VisualResult where
  confidence : ℚ
  detected_object : String
deriving DecidableEq, Repr

/-- Input dict of the audio modality: keys `confidence`, `predicted_class`. -/
structure AudioResult where
  confidence : ℚ
  predicted_class : String
deriving DecidableEq, Repr

/-- One entry of `ESCALATION_RULES`: the overriding alert level and label. -/
structure EscalationRule where
  alert_level : String
  label : String
deriving DecidableEq, Repr

/-- The fused dict returned by `LateFusionEngine.fuse` (the `timestamp`
field, a wall-clock read, is omitted). -/
structure FusedResult where
  fusion_method : String
  fusion_type : String
  sources : List String
  visual_confidence : Option ℚ
  audio_confidence : Option ℚ
  visual_object : Option String
  audio_class : Option String
  fusion_confidence : ℚ
  detected_object : String
  alert_level : String
  escalation_applied : Bool
  escalation_rule : Option String
  weights_visual : ℚ
  weights_audio : ℚ
deriving DecidableEq, Repr

/-- `LateFusionEngine`'s instance state set by `__init__`. -/
structure LateFusionEngine where
  visual_weight : ℚ
  audio_weight : ℚ
  fusion_method : String
deriving DecidableEq, Repr

namespace LateFusionEngine

/-- The class attribute `ESCALATION_RULES`, in source order. -/
def ESCALATION_RULES : List ((String × String) × EscalationRule) :=
  [ (("human", "gunshot"), ⟨"critical", "armed_poacher"⟩),
    (("human", "chainsaw"), ⟨"critical", "illegal_logging"⟩),
    (("human", "vehicle"), ⟨"high", "suspicious_vehicle"⟩),
    (("vehicle", "gunshot"), ⟨"critical", "armed_vehicle"⟩),
    (("poacher", "gunshot"), ⟨"critical", "confirmed_poacher"⟩) ]

/-- `LateFusionEngine.__init__(visual_weight, audio_weight)`:
raises `ValueError` unless the weights sum to 1.0 within 0.01. -/
def init (visual_weight : ℚ := 6/10) (audio_weight : ℚ := 4/10) :
    Except String LateFusionEngine :=
  if |((visual_weight + audio_weight) - 1)| > 1/100 then
    .error "Weights must sum to 1.0"
  else
    .ok ⟨visual_weight, audio_weight, "weighted_average"⟩

/-- `_confidence_to_alert`: map fused confidence to alert level. -/
def confidence_to_alert (confidence : ℚ) : String :=
  if confidence ≥ 9/10 then "critical"
  else if confidence ≥ 8/10 then "high"
  else if confidence ≥ 65/100 then "medium"
  else if confidence ≥ 5/10 then "low"
  else "none"

/-- `_determine_primary_object`: pick the primary detected object from the
higher-confidence modality (Python truthiness of a string is non-emptiness). -/
def determine_primary_object (visual_object audio_class : String)
    (visual_conf audio_conf : ℚ) : String :=
  if visual_object ≠ "" ∧ audio_class ≠ "" then
    if visual_conf ≥ audio_conf then visual_object else audio_class
  else if visual_object ≠ "" then visual_object
  else if audio_class ≠ "" then audio_class
  else "unknown"

/-- `_check_escalation`: dict lookup of `(visual_object, audio_class)`
in `ESCALATION_RULES`, `None` on a miss. -/
def check_escalation (visual_object audio_class : String) :
    Option EscalationRule :=
  (ESCALATION_RULES.lookup (visual_object, audio_class))

/-- `LateFusionEngine.fuse(visual_result, audio_result)`. -/
def fuse (self : LateFusionEngine)
    (visual_result : Option VisualResult := none)
    (audio_result : Option AudioResult := none) :
    Except String FusedResult :=
  if visual_result = none ∧ audio_result = none then
    .error "At least one modality must be provided"
  else
    let visual_conf := match visual_result with
      | some v => v.confidence
      | none => 0
    let audio_conf := match audio_result with
      | some a => a.confidence
      | none => 0
    let visual_object := match visual_result with
      | some v => v.detected_object
      | none => ""
    let audio_class := match audio_result with
      | some a => a.predicted_class
      | none => ""
    let has_visual := visual_result.isSome
    let has_audio := audio_result.isSome
    let fusionTriple : ℚ × String × List String :=
      if has_visual ∧ has_audio then
        (self.visual_weight * visual_conf + self.audio_weight * audio_conf,
         "full", ["image", "audio"])
      else if has_visual then
        (visual_conf, "visual_only", ["image"])
      else
        (audio_conf, "audio_only", ["audio"])
    let fusion_confidence := fusionTriple.1
    let fusion_type := fusionTriple.2.1
    let sources := fusionTriple.2.2
    let alert_level := confidence_to_alert fusion_confidence
    let detected_object :=
      determine_primary_object visual_object audio_class visual_conf audio_conf
    let escalation : Option EscalationRule :=
      if has_visual ∧ has_audio then check_escalation visual_object audio_class
      else none
    let alert_level := match escalation with
      | some e => e.alert_level
      | none => alert_level
    let detected_object := match escalation with
      | some e => e.label
      | none => detected_object
    .ok
      { fusion_method := self.fusion_method
        fusion_type := fusion_type
        sources := sources
        visual_confidence := if has_visual then some (round4 visual_conf) else none
        audio_confidence := if has_audio then some (round4 audio_conf) else none
        visual_object := if has_visual then some visual_object else none
        audio_class := if has_audio then some audio_class else none
        fusion_confidence := round4 fusion_confidence
        detected_object := detected_object
        alert_level := alert_level
        escalation_applied := escalation.isSome
        escalation_rule :=
          if escalation.isSome then some (visual_object ++ "+" ++ audio_class)
          else none
        weights_visual := self.visual_weight
        weights_audio := self.audio_weight }

end LateFusionEngine

/-- The engine with default weights, as constructed by
`LateFusionEngine()` at the call sites in the generator. -/
def defaultEngine : LateFusionEngine := ⟨6/10, 4/10, "weighted_average"⟩

/-! ## Basic lemmas about the rounding embedding -/

lemma roundHalfEven_dist (q : ℚ) : |(roundHalfEven q : ℚ) - q| ≤ 1/2 := by
  unfold roundHalfEven
  have hfl : (q.num / (q.den : ℤ)) = ⌊q⌋ := (Rat.floor_def).symm
  rw [hfl]
  dsimp only
  have h0 : (0:ℚ) ≤ q - ⌊q⌋ := by
    have := Int.floor_le q
    linarith
  have h1 : q - ⌊q⌋ < 1 := by
    have := Int.lt_floor_add_one q
    linarith
  split_ifs with hlt hgt _
  · rw [abs_sub_comm, abs_of_nonneg h0]; linarith
  · rw [abs_of_nonneg (by push_cast; linarith)]; push_cast; linarith
  · rw [abs_sub_comm, abs_of_nonneg h0]; linarith
  · rw [abs_of_nonneg (by push_cast; linarith)]; push_cast; linarith

lemma round4_dist (q : ℚ) : |round4 q - q| ≤ 1/20000 := by
  unfold round4
  have h := roundHalfEven_dist (q * 10000)
  rw [show (roundHalfEven (q * 10000) : ℚ) / 10000 - q
        = ((roundHalfEven (q * 10000) : ℚ) - q * 10000) / 10000 by ring,
      abs_div]
  rw [show |(10000:ℚ)| = 10000 by norm_num]
  rw [div_le_iff₀ (by norm_num)]
  calc |(roundHalfEven (q * 10000) : ℚ) - q * 10000| ≤ 1/2 := h
    _ ≤ 1/20000 * 10000 := by norm_num

/-! ## Theorems settling the claims -/

/-- **C1.** For every call to `LateFusionEngine.fuse`: when both visual and
audio results are present, the returned `fusion_confidence` is the weighted
average `visual_weight·visualConf + audio_weight·audioConf` (0.6/0.4 under
default weights) up to the 4-decimal rounding applied on output (tolerance
`1/20000`), and `fusion_type` is `"full"`; when exactly one modality is
present, `fusion_confidence` is that modality's confidence up to the same
rounding, and `fusion_type` is `"visual_only"` / `"audio_only"` (the code's
snake_case rendering of the spec's `visualOnly` / `audioOnly`). -/
theorem fuse_confidence_and_type (e : LateFusionEngine)
    (v : VisualResult) (a : AudioResult) :
    (∀ r, e.fuse (some v) (some a) = .ok r →
       r.fusion_confidence =
         round4 (e.visual_weight * v.confidence + e.audio_weight * a.confidence) ∧
       |r.fusion_confidence -
         (e.visual_weight * v.confidence + e.audio_weight * a.confidence)| ≤ 1/20000 ∧
       r.fusion_type = "full") ∧
    (∀ r, e.fuse (some v) none = .ok r →
       r.fusion_confidence = round4 v.confidence ∧
       |r.fusion_confidence - v.confidence| ≤ 1/20000 ∧
       r.fusion_type = "visual_only") ∧
    (∀ r, e.fuse none (some a) = .ok r →
       r.fusion_confidence = round4 a.confidence ∧
       |r.fusion_confidence - a.confidence| ≤ 1/20000 ∧
       r.fusion_type = "audio_only") := by
  refine ⟨?_, ?_, ?_⟩ <;>
    · intro r h
      simp only [LateFusionEngine.fuse, Option.isSome_some, Option.isSome_none,
        reduceCtorEq, and_false, false_and, and_true, true_and, if_false,
        if_true, and_self, ite_true, ite_false, not_false_eq_true] at h
      cases h
      refine ⟨rfl, ?_, rfl⟩
      exact round4_dist _

/-- **C2.** The base alert level computed from a fused confidence `c` is
determined by boundary-inclusive thresholds: `c ≥ 0.90` gives `critical`,
`0.80 ≤ c < 0.90` gives `high`, `0.65 ≤ c < 0.80` gives `medium`,
`0.50 ≤ c < 0.65` gives `low`, and `c < 0.50` gives `none`; in particular
exactly `0.90` is critical, `0.8999` is high, exactly `0.65` is medium,
exactly `0.50` is low, and `0.4999` is none. -/
theorem confidence_to_alert_bands :
    (∀ c : ℚ,
      (LateFusionEngine.confidence_to_alert c = "critical" ↔ 9/10 ≤ c) ∧
      (LateFusionEngine.confidence_to_alert c = "high" ↔ 8/10 ≤ c ∧ c < 9/10) ∧
      (LateFusionEngine.confidence_to_alert c = "medium" ↔ 65/100 ≤ c ∧ c < 8/10) ∧
      (LateFusionEngine.confidence_to_alert c = "low" ↔ 1/2 ≤ c ∧ c < 65/100) ∧
      (LateFusionEngine.confidence_to_alert c = "none" ↔ c < 1/2)) ∧
    LateFusionEngine.confidence_to_alert (9/10) = "critical" ∧
    LateFusionEngine.confidence_to_alert (8999/10000) = "high" ∧
    LateFusionEngine.confidence_to_alert (65/100) = "medium" ∧
    LateFusionEngine.confidence_to_alert (1/2) = "low" ∧
    LateFusionEngine.confidence_to_alert (4999/10000) = "none" := by
  refine ⟨?_, ?_, ?_, ?_, ?_, ?_⟩
  · intro c
    unfold LateFusionEngine.confidence_to_alert
    split_ifs with h1 h2 h3 h4
    · exact ⟨iff_of_true rfl (by linarith),
        iff_of_false (by decide) (fun h => by linarith [h.2]),
        iff_of_false (by decide) (fun h => by linarith [h.2]),
        iff_of_false (by decide) (fun h => by linarith [h.2]),
        iff_of_false (by decide) (fun h => by linarith)⟩
    · push_neg at h1
      exact ⟨iff_of_false (by decide) (fun h => by linarith),
        iff_of_true rfl ⟨by linarith, h1⟩,
        iff_of_false (by decide) (fun h => by linarith [h.2]),
        iff_of_false (by decide) (fun h => by linarith [h.2]),
        iff_of_false (by decide) (fun h => by linarith)⟩
    · push_neg at h1 h2
      exact ⟨iff_of_false (by decide) (fun h => by linarith),
        iff_of_false (by decide) (fun h => by linarith [h.1]),
        iff_of_true rfl ⟨by linarith, h2⟩,
        iff_of_false (by decide) (fun h => by linarith [h.2]),
        iff_of_false (by decide) (fun h => by linarith)⟩
    · push_neg at h1 h2 h3
      exact ⟨iff_of_false (by decide) (fun h => by linarith),
        iff_of_false (by decide) (fun h => by linarith [h.1]),
        iff_of_false (by decide) (fun h => by linarith [h.1]),
        iff_of_true rfl ⟨by linarith, h3⟩,
        iff_of_false (by decide) (fun h => by linarith)⟩
    · push_neg at h1 h2 h3 h4
      exact ⟨iff_of_false (by decide) (fun h => by linarith),
        iff_of_false (by decide) (fun h => by linarith [h.1]),
        iff_of_false (by decide) (fun h => by linarith [h.1]),
        iff_of_false (by decide) (fun h => by linarith [h.1]),
        iff_of_true rfl (by linarith)⟩
  all_goals with_unfolding_all decide

/-- **C8.** Constructing a `LateFusionEngine` raises a configuration error
iff `|visual_weight + audio_weight − 1| > 0.01`; construction with the
default weights `0.6/0.4`, or any pair within that tolerance, succeeds. -/
theorem init_weight_check :
    (∀ vw aw : ℚ,
      LateFusionEngine.init vw aw = .error "Weights must sum to 1.0" ↔
        |vw + aw - 1| > 1/100) ∧
    (∀ vw aw : ℚ,
      LateFusionEngine.init vw aw = .ok ⟨vw, aw, "weighted_average"⟩ ↔
        |vw + aw - 1| ≤ 1/100) ∧
    LateFusionEngine.init (6/10) (4/10) =
      .ok ⟨6/10, 4/10, "weighted_average"⟩ := by
  refine ⟨?_, ?_, ?_⟩
  · intro vw aw
    unfold LateFusionEngine.init
    split_ifs with h
    · exact iff_of_true rfl h
    · exact iff_of_false (by simp) h
  · intro vw aw
    unfold LateFusionEngine.init
    split_ifs with h
    · exact iff_of_false (by simp) (not_le.mpr h)
    · exact iff_of_true rfl (not_lt.mp h)
  · with_unfolding_all rfl

/-- The five registered escalation keys, in source order. -/
def escalationKeys : List (String × String) :=
  LateFusionEngine.ESCALATION_RULES.map Prod.fst

lemma check_escalation_eq_none_of_not_mem (vo ac : String)
    (h : (vo, ac) ∉ escalationKeys) :
    LateFusionEngine.check_escalation vo ac = none := by
  simp only [escalationKeys, LateFusionEngine.ESCALATION_RULES, List.map_cons,
    List.map_nil, List.mem_cons, List.not_mem_nil, or_false, not_or] at h
  obtain ⟨h1, h2, h3, h4, h5⟩ := h
  simp [LateFusionEngine.check_escalation, LateFusionEngine.ESCALATION_RULES,
    List.lookup, beq_eq_false_iff_ne.mpr h1, beq_eq_false_iff_ne.mpr h2,
    beq_eq_false_iff_ne.mpr h3, beq_eq_false_iff_ne.mpr h4,
    beq_eq_false_iff_ne.mpr h5]

/-- **C3.** For every full fusion (both modalities present): if
`(visual label, audio label)` is a registered escalation key, the result's
alert level and label are overridden by the rule's values,
`escalation_applied` is `true`, and `escalation_rule` is
`"<visual>+<audio>"`; the registry holds exactly the five documented rules
and yields `none` (no match, not an error) for every other pair, in which
case `escalation_applied` is `false` and the threshold-derived severity and
confidence-derived label stand. -/
theorem fuse_escalation (e : LateFusionEngine) (v : VisualResult)
    (a : AudioResult) (r : FusedResult)
    (h : e.fuse (some v) (some a) = .ok r) :
    (∀ rule, LateFusionEngine.check_escalation v.detected_object a.predicted_class
        = some rule →
      r.alert_level = rule.alert_level ∧ r.detected_object = rule.label ∧
      r.escalation_applied = true ∧
      r.escalation_rule = some (v.detected_object ++ "+" ++ a.predicted_class)) ∧
    (LateFusionEngine.check_escalation v.detected_object a.predicted_class
        = none →
      r.escalation_applied = false ∧ r.escalation_rule = none ∧
      r.alert_level = LateFusionEngine.confidence_to_alert
        (e.visual_weight * v.confidence + e.audio_weight * a.confidence) ∧
      r.detected_object = LateFusionEngine.determine_primary_object
        v.detected_object a.predicted_class v.confidence a.confidence) ∧
    LateFusionEngine.check_escalation "human" "gunshot"
      = some ⟨"critical", "armed_poacher"⟩ ∧
    LateFusionEngine.check_escalation "human" "chainsaw"
      = some ⟨"critical", "illegal_logging"⟩ ∧
    LateFusionEngine.check_escalation "human" "vehicle"
      = some ⟨"high", "suspicious_vehicle"⟩ ∧
    LateFusionEngine.check_escalation "vehicle" "gunshot"
      = some ⟨"critical", "armed_vehicle"⟩ ∧
    LateFusionEngine.check_escalation "poacher" "gunshot"
      = some ⟨"critical", "confirmed_poacher"⟩ ∧
    (∀ vo ac : String, (vo, ac) ∉ escalationKeys →
      LateFusionEngine.check_escalation vo ac = none) := by
  simp only [LateFusionEngine.fuse, Option.isSome_some, reduceCtorEq,
    and_false, and_true, true_and, and_self, if_true, ite_true, ite_false,
    not_false_eq_true, if_false] at h
  cases h
  refine ⟨?_, ?_, by decide, by decide, by decide, by decide, by decide,
    check_escalation_eq_none_of_not_mem⟩
  · intro rule hrule
    simp [hrule]
  · intro hrule
    simp [hrule]

/-- **C7.** For every full fusion where both labels are non-empty and no
escalation rule fires, the returned primary label is the label of the
modality with the strictly higher confidence, and on an exact confidence
tie the visual label is chosen. -/
theorem fuse_primary_label_higher_confidence (e : LateFusionEngine)
    (v : VisualResult) (a : AudioResult) (r : FusedResult)
    (h : e.fuse (some v) (some a) = .ok r)
    (hv : v.detected_object ≠ "") (ha : a.predicted_class ≠ "")
    (hesc : LateFusionEngine.check_escalation v.detected_object
      a.predicted_class = none) :
    (a.confidence < v.confidence → r.detected_object = v.detected_object) ∧
    (v.confidence < a.confidence → r.detected_object = a.predicted_class) ∧
    (v.confidence = a.confidence → r.detected_object = v.detected_object) := by
  simp only [LateFusionEngine.fuse, Option.isSome_some, reduceCtorEq,
    and_false, and_true, true_and, and_self, if_true, ite_true, ite_false,
    not_false_eq_true, if_false] at h
  cases h
  simp only [hesc]
  unfold LateFusionEngine.determine_primary_object
  refine ⟨fun hlt => ?_, fun hlt => ?_, fun heq => ?_⟩
  · simp [hv, ha, le_of_lt hlt]
  · simp [hv, ha, not_le.mpr hlt]
  · simp [hv, ha, le_of_eq heq.symm]

/-- **C9.** For every full fusion where exactly one of the two labels is
the empty string (and no escalation rule fires), the returned primary
label is the non-empty label regardless of which modality has the higher
confidence; when both labels are empty, the label is `"unknown"`. -/
theorem fuse_primary_label_empty_fallback (e : LateFusionEngine)
    (v : VisualResult) (a : AudioResult) (r : FusedResult)
    (h : e.fuse (some v) (some a) = .ok r)
    (hesc : LateFusionEngine.check_escalation v.detected_object
      a.predicted_class = none) :
    (v.detected_object = "" → a.predicted_class ≠ "" →
      r.detected_object = a.predicted_class) ∧
    (v.detected_object ≠ "" → a.predicted_class = "" →
      r.detected_object = v.detected_object) ∧
    (v.detected_object = "" → a.predicted_class = "" →
      r.detected_object = "unknown") := by
  simp only [LateFusionEngine.fuse, Option.isSome_some, reduceCtorEq,
    and_false, and_true, true_and, and_self, if_true, ite_true, ite_false,
    not_false_eq_true, if_false] at h
  cases h
  simp only [hesc]
  unfold LateFusionEngine.determine_primary_object
  refine ⟨fun h1 h2 => ?_, fun h1 h2 => ?_, fun h1 h2 => ?_⟩ <;>
    simp [h1, h2]

/-- **C6 (counterexample).** The claim says `fuse` fails whenever a
provided confidence lies outside `[0,1]` and returns no result for such
input; but `fuse` with a visual confidence of `1.5` returns a result. -/
theorem fuse_accepts_out_of_range_confidence :
    ¬ ((3/2 : ℚ) ∈ Set.Icc (0:ℚ) 1) ∧
    (defaultEngine.fuse (some ⟨3/2, "human"⟩) none).isOk = true := by
  constructor
  · intro hmem
    have := hmem.2
    norm_num at this
  · with_unfolding_all rfl

/-- **C6 (amended).** `fuse` fails fast with the invalid-call `ValueError`
iff both inputs are absent; a confidence outside `[0,1]` is not validated:
the call succeeds and the out-of-range value propagates into the fused
confidence unclamped. -/
theorem fuse_error_iff_both_absent :
    (∀ (e : LateFusionEngine) (vr : Option VisualResult)
        (ar : Option AudioResult),
      e.fuse vr ar = .error "At least one modality must be provided" ↔
        vr = none ∧ ar = none) ∧
    (∀ (e : LateFusionEngine) (vr : Option VisualResult)
        (ar : Option AudioResult),
      (e.fuse vr ar).isOk = true ↔ ¬ (vr = none ∧ ar = none)) ∧
    (∀ r, defaultEngine.fuse (some ⟨3/2, "human"⟩) none = .ok r →
      r.fusion_confidence = 3/2) := by
  refine ⟨?_, ?_, ?_⟩
  · intro e vr ar
    unfold LateFusionEngine.fuse
    split_ifs with h
    · exact iff_of_true rfl h
    · exact iff_of_false (by simp) h
  · intro e vr ar
    unfold LateFusionEngine.fuse
    split_ifs with h
    · exact iff_of_false (by simp [Except.isOk, Except.toBool]) (by simpa using h)
    · exact iff_of_true rfl h
  · intro r h
    simp only [LateFusionEngine.fuse, Option.isSome_some, Option.isSome_none,
      reduceCtorEq, and_false, false_and, and_true, true_and, and_self,
      if_true, ite_true, ite_false, not_false_eq_true, if_false] at h
    cases h
    with_unfolding_all rfl

/-- **C10.** The `fusion_confidence` field returned by `fuse` is the
computed confidence rounded to 4 decimal places, while `alert_level` is
derived from the unrounded value; for the inputs `0.8666` and `0.95` the
unrounded confidence is `0.89996`, the reported `fusion_confidence` is
`0.9` (in the critical band), yet the returned `alert_level` is `"high"`. -/
theorem fuse_rounds_output_but_alerts_unrounded :
    (∀ (e : LateFusionEngine) (v : VisualResult) (a : AudioResult)
        (r : FusedResult),
      e.fuse (some v) (some a) = .ok r →
      LateFusionEngine.check_escalation v.detected_object a.predicted_class
        = none →
      r.fusion_confidence =
        round4 (e.visual_weight * v.confidence + e.audio_weight * a.confidence) ∧
      r.alert_level = LateFusionEngine.confidence_to_alert
        (e.visual_weight * v.confidence + e.audio_weight * a.confidence)) ∧
    ((6:ℚ)/10 * (8666/10000) + 4/10 * (95/100) = 89996/100000) ∧
    (∀ r, defaultEngine.fuse (some ⟨8666/10000, "wildlife"⟩)
        (some ⟨95/100, "gunshot"⟩) = .ok r →
      r.fusion_confidence = 9/10 ∧ r.alert_level = "high" ∧
      LateFusionEngine.confidence_to_alert r.fusion_confidence = "critical") := by
  refine ⟨?_, by norm_num, ?_⟩
  · intro e v a r h hesc
    simp only [LateFusionEngine.fuse, Option.isSome_some, reduceCtorEq,
      and_false, and_true, true_and, and_self, if_true, ite_true, ite_false,
      not_false_eq_true, if_false] at h
    cases h
    simp [hesc]
  · intro r h
    simp only [LateFusionEngine.fuse, Option.isSome_some, reduceCtorEq,
      and_false, and_true, true_and, and_self, if_true, ite_true, ite_false,
      not_false_eq_true, if_false] at h
    cases h
    refine ⟨?_, ?_, ?_⟩ <;> with_unfolding_all rfl

/-! ## Concrete fused records used by the witnesses -/

/-- `fuse({0.85, human}, {0.92, gunshot})` under default weights. -/
def sampleEscalated : FusedResult :=
  { fusion_method := "weighted_average", fusion_type := "full",
    sources := ["image", "audio"],
    visual_confidence := some (17/20), audio_confidence := some (23/25),
    visual_object := some "human", audio_class := some "gunshot",
    fusion_confidence := 439/500, detected_object := "armed_poacher",
    alert_level := "critical", escalation_applied := true,
    escalation_rule := some "human+gunshot",
    weights_visual := 6/10, weights_audio := 4/10 }

/-- `fuse({0.80, elephant}, {0.75, elephant})` under default weights. -/
def sampleCorroborated : FusedResult :=
  { fusion_method := "weighted_average", fusion_type := "full",
    sources := ["image", "audio"],
    visual_confidence := some (4/5), audio_confidence := some (3/4),
    visual_object := some "elephant", audio_class := some "elephant",
    fusion_confidence := 39/50, detected_object := "elephant",
    alert_level := "medium", escalation_applied := false,
    escalation_rule := none,
    weights_visual := 6/10, weights_audio := 4/10 }

/-- `fuse({0.5, ""}, {0.6, gunshot})` under default weights. -/
def sampleEmptyVisualLabel : FusedResult :=
  { fusion_method := "weighted_average", fusion_type := "full",
    sources := ["image", "audio"],
    visual_confidence := some (1/2), audio_confidence := some (3/5),
    visual_object := some "", audio_class := some "gunshot",
    fusion_confidence := 27/50, detected_object := "gunshot",
    alert_level := "low", escalation_applied := false,
    escalation_rule := none,
    weights_visual := 6/10, weights_audio := 4/10 }

/-- `fuse({1.5, human}, None)` under default weights: the out-of-range
confidence propagates unclamped. -/
def sampleOutOfRange : FusedResult :=
  { fusion_method := "weighted_average", fusion_type := "visual_only",
    sources := ["image"],
    visual_confidence := some (3/2), audio_confidence := none,
    visual_object := some "human", audio_class := none,
    fusion_confidence := 3/2, detected_object := "human",
    alert_level := "critical", escalation_applied := false,
    escalation_rule := none,
    weights_visual := 6/10, weights_audio := 4/10 }

/-- `fuse({0.8666, wildlife}, {0.95, gunshot})` under default weights. -/
def sampleRounded : FusedResult :=
  { fusion_method := "weighted_average", fusion_type := "full",
    sources := ["image", "audio"],
    visual_confidence := some (4333/5000), audio_confidence := some (19/20),
    visual_object := some "wildlife", audio_class := some "gunshot",
    fusion_confidence := 9/10, detected_object := "gunshot",
    alert_level := "high", escalation_applied := false,
    escalation_rule := none,
    weights_visual := 6/10, weights_audio := 4/10 }

/-- Witness for the amended C6 at `fuse({1.5, human}, None)`. -/
theorem fuse_error_iff_both_absent_witness :
    sampleOutOfRange.fusion_confidence = 3/2 :=
  fuse_error_iff_both_absent.2.2 sampleOutOfRange (by with_unfolding_all rfl)

/-- Witness for C1 at `fuse({0.85, human}, {0.92, gunshot})`. -/
theorem fuse_confidence_and_type_witness :
    sampleEscalated.fusion_confidence =
      round4 (defaultEngine.visual_weight * (17/20) +
        defaultEngine.audio_weight * (23/25)) ∧
    |sampleEscalated.fusion_confidence -
      (defaultEngine.visual_weight * (17/20) +
        defaultEngine.audio_weight * (23/25))| ≤ 1/20000 ∧
    sampleEscalated.fusion_type = "full" :=
  (fuse_confidence_and_type defaultEngine ⟨17/20, "human"⟩
    ⟨23/25, "gunshot"⟩).1 sampleEscalated (by with_unfolding_all rfl)

/-- Witness for C3 at the `human`+`gunshot` escalation. -/
theorem fuse_escalation_witness :
    sampleEscalated.alert_level = "critical" ∧
    sampleEscalated.detected_object = "armed_poacher" ∧
    sampleEscalated.escalation_applied = true ∧
    sampleEscalated.escalation_rule = some ("human" ++ "+" ++ "gunshot") :=
  (fuse_escalation defaultEngine ⟨17/20, "human"⟩ ⟨23/25, "gunshot"⟩
      sampleEscalated (by with_unfolding_all rfl)).1
    ⟨"critical", "armed_poacher"⟩ (by with_unfolding_all rfl)

/-- Witness for C7 at `fuse({0.80, elephant}, {0.75, elephant})`:
the visual confidence is strictly higher, so the visual label wins. -/
theorem fuse_primary_label_higher_confidence_witness :
    sampleCorroborated.detected_object = "elephant" :=
  (fuse_primary_label_higher_confidence defaultEngine ⟨4/5, "elephant"⟩
      ⟨3/4, "elephant"⟩ sampleCorroborated (by with_unfolding_all rfl)
      (by decide) (by decide) (by with_unfolding_all rfl)).1
    (by norm_num)

/-- Witness for C9 at `fuse({0.5, ""}, {0.6, gunshot})`: the visual
label is empty, so the audio label is returned although the audio
confidence is higher anyway; use the empty-visual branch. -/
theorem fuse_primary_label_empty_fallback_witness :
    sampleEmptyVisualLabel.detected_object = "gunshot" :=
  (fuse_primary_label_empty_fallback defaultEngine ⟨1/2, ""⟩
      ⟨3/5, "gunshot"⟩ sampleEmptyVisualLabel (by with_unfolding_all rfl)
      (by with_unfolding_all rfl)).1 rfl (by decide)

/-- Witness for C10 at `fuse({0.8666, wildlife}, {0.95, gunshot})`. -/
theorem fuse_rounds_output_but_alerts_unrounded_witness :
    sampleRounded.fusion_confidence = 9/10 ∧
    sampleRounded.alert_level = "high" ∧
    LateFusionEngine.confidence_to_alert sampleRounded.fusion_confidence
      = "critical" :=
  fuse_rounds_output_but_alerts_unrounded.2.2 sampleRounded
    (by with_unfolding_all rfl)

/-! ## Field-operator visibility (`user_module/views.py`)

The Mongo queries in `user_alerts` and `user_dashboard` combine a date
filter, an active-camera filter, and a verification/alert-level filter.
Only the verification/alert-level part decides visibility of a detection
and is embedded here; the predicates below are the membership conditions
those queries impose on a detection document's `alert_level` and
`is_verified` fields (`severity`/`level`/`days` request parameters left
at their defaults). -/

/-- The `alert_level` / `is_verified` fields of a stored detection, as
read by the visibility queries. -/
structure StoredDetection where
  alert_level : String
  is_verified : Bool
deriving DecidableEq, Repr

/-- The verification/alert-level part of the `user_alerts` query:
`'alert_level': {'$in': ['medium','high','critical']}` together with
`'$or': [{'is_verified': True}, {'alert_level': {'$in': ['critical','high']}}]`. -/
def user_alerts_member (d : StoredDetection) : Bool :=
  ["medium", "high", "critical"].contains d.alert_level &&
    (d.is_verified || ["critical", "high"].contains d.alert_level)

/-- The verification/alert-level part of the recent-detections query in
`user_dashboard`:
`'$or': [{'is_verified': True}, {'alert_level': {'$in': ['critical','high']}}]`. -/
def user_dashboard_recent_member (d : StoredDetection) : Bool :=
  d.is_verified || ["critical", "high"].contains d.alert_level

/-- Modelled from the spec: `VisibilityGate.isVisible` — the spec's §4.3
pure predicate `isVisible(d) = d.verification == verified OR
d.alertLevel ∈ {high, critical}` (no VisibilityGate component exists as a
named unit in the source; the spec abstracts it from the query filters). -/
def isVisible (d : StoredDetection) : Bool :=
  d.is_verified || (d.alert_level = "high" || d.alert_level = "critical")

/-- **C4 (counterexample).** The claim says the predicate
`verified OR alertLevel ∈ {high, critical}` decides membership in every
field-operator list query, including the user alerts list; but a verified
detection with `alert_level = "low"` satisfies the predicate and is
excluded from the `user_alerts` query, which also requires
`alert_level ∈ {medium, high, critical}`. -/
theorem visibility_not_same_in_user_alerts :
    isVisible ⟨"low", true⟩ = true ∧
    user_alerts_member ⟨"low", true⟩ = false := by
  constructor <;> rfl

/-- **C4 (amended).** The visibility predicate returns true iff the
detection is verified or its alert level is high or critical, and it is
exactly the membership predicate of the dashboard recent-detections
query; the `user_alerts` query conjoins it with
`alert_level ∈ {medium, high, critical}`, so there a verified low (or
none-level) detection is excluded. The three particular cases hold under
both queries: an unverified critical detection is visible, an unverified
medium detection is not, and a verified medium detection is. -/
theorem visibility_gate_queries :
    (∀ d : StoredDetection,
      isVisible d = true ↔
        d.is_verified = true ∨ d.alert_level = "high" ∨
          d.alert_level = "critical") ∧
    (∀ d : StoredDetection, user_dashboard_recent_member d = isVisible d) ∧
    (∀ d : StoredDetection,
      user_alerts_member d =
        (["medium", "high", "critical"].contains d.alert_level && isVisible d)) ∧
    isVisible ⟨"critical", false⟩ = true ∧
    user_dashboard_recent_member ⟨"critical", false⟩ = true ∧
    user_alerts_member ⟨"critical", false⟩ = true ∧
    isVisible ⟨"medium", false⟩ = false ∧
    user_dashboard_recent_member ⟨"medium", false⟩ = false ∧
    user_alerts_member ⟨"medium", false⟩ = false ∧
    isVisible ⟨"medium", true⟩ = true ∧
    user_dashboard_recent_member ⟨"medium", true⟩ = true ∧
    user_alerts_member ⟨"medium", true⟩ = true := by
  refine ⟨?_, ?_, ?_, rfl, rfl, rfl, rfl, rfl, rfl, rfl, rfl, rfl⟩
  · intro d
    simp [isVisible]
  · intro d
    simp only [user_dashboard_recent_member, isVisible, List.contains_cons,
      List.contains_nil, Bool.or_false]
    cases hv : d.is_verified <;>
      cases hc : d.alert_level == "critical" <;>
      cases hh : d.alert_level == "high" <;>
      simp_all [beq_iff_eq]
  · intro d
    simp only [user_alerts_member, isVisible, List.contains_cons,
      List.contains_nil, Bool.or_false]
    cases hv : d.is_verified <;>
      cases hc : d.alert_level == "critical" <;>
      cases hh : d.alert_level == "high" <;>
      cases hm : d.alert_level == "medium" <;>
      simp_all [beq_iff_eq]

/-! ## Detection generator (`detection/detection_generator.py`)

One generation call is embedded as a pure function of the random draws it
makes and of the dataset availability it observes; the Mongo inserts
become the returned documents (detection first, alert second, mirroring
the fixed write order). Media copying, camera choice and timestamps do
not affect which records are written and are not modelled. -/

/-- Python `needle in hay` substring test. -/
def strContains (hay needle : String) : Bool :=
  decide (needle.toList <:+: hay.toList)

/-- The `animal_types` list of the generator, in source order. -/
def animal_types : List String :=
  ["bear", "deer", "elephant", "fox", "leopard", "lion", "monkey", "tiger"]

/-- The filename-to-label scan used by the animal branches:
first matching species substring in the lowercased name, else
`"wildlife"`. -/
def animalLabelFromName (name : String) : String :=
  match animal_types.find? (fun animal => strContains name.toLower animal) with
  | some animal => animal
  | none => "wildlife"

/-- The fields of a generated detection document that the claims read. -/
structure GenDetection where
  detection_type : String
  detected_object : String
  confidence : ℚ
  alert_level : String
deriving DecidableEq, Repr

/-- The fields of a generated `emergency_alerts` document that the claims
read. -/
structure GenAlert where
  alert_type : String
  severity : String
deriving DecidableEq, Repr

/-- The random draws and dataset observations made by one call of
`generate_detection_with_pymongo` (each `Fin` indexes the corresponding
`random.choice` list; Booleans record the outcome of the probabilistic
tests and the non-emptiness of the dataset globs). -/
structure GenDraws where
  detection_type : String
  has_animal_images : Bool
  has_human_images : Bool
  has_gunshot_audio : Bool
  has_human_audio : Bool
  animal_img_name : String
  animal_conf : ℚ
  animal_level_idx : Fin 3
  human_conf : ℚ
  is_suspicious : Bool
  suspicious_alert_type_idx : Fin 2
  suspicious_severity_idx : Fin 2
  audio_is_gunshot : Bool
  gunshot_conf : ℚ
  human_audio_conf : ℚ

/-- `generate_detection_with_pymongo(db, media_root, force_audio)`:
the detection document inserted (if any) and the emergency-alert
document inserted (if any). -/
def generate_detection_with_pymongo (force_audio : Bool) (d : GenDraws) :
    Option GenDetection × Option GenAlert :=
  let detection_type := if force_audio then "audio" else d.detection_type
  if detection_type = "animal" ∧ d.has_animal_images then
    (some { detection_type := "image"
            detected_object := animalLabelFromName d.animal_img_name
            confidence := d.animal_conf
            alert_level := ["low", "low", "medium"].get d.animal_level_idx },
     none)
  else if detection_type = "human" ∧ d.has_human_images then
    let doc : GenDetection :=
      { detection_type := "image", detected_object := "human"
        confidence := d.human_conf
        alert_level := if d.is_suspicious then "high" else "medium" }
    if d.is_suspicious then
      (some doc,
       some { alert_type := ["armed_person", "vehicle_in_restricted_zone"].get
                d.suspicious_alert_type_idx
              severity := ["high", "critical"].get d.suspicious_severity_idx })
    else
      (some doc, none)
  else if detection_type = "audio" then
    if d.audio_is_gunshot ∧ d.has_gunshot_audio then
      (some { detection_type := "audio", detected_object := "gunshot"
              confidence := d.gunshot_conf, alert_level := "critical" },
       some { alert_type := "gunshot", severity := "critical" })
    else if d.has_human_audio then
      (some { detection_type := "audio", detected_object := "human_activity"
              confidence := d.human_audio_conf, alert_level := "medium" },
       none)
    else (none, none)
  else (none, none)

/-- The random draws and dataset observations made by one call of
`generate_fused_detection`. `pick_first_scenario` is the
`random.choice(scenarios)` outcome when both coherent scenarios are
available (human-image+gunshot first, animal-image+gunshot second). -/
structure FusedDraws where
  has_human_images : Bool
  has_animal_images : Bool
  has_gunshot_audio : Bool
  pick_first_scenario : Bool
  img_name : String
  visual_conf : ℚ
  audio_conf : ℚ

/-- The visual label of the scenario chosen by
`generate_fused_detection`: `"human"` for the human+gunshot scenario,
the filename-derived animal label otherwise. -/
def fusedVisualObject (d : FusedDraws) : String :=
  let s1 := d.has_human_images && d.has_gunshot_audio
  let s2 := d.has_animal_images && d.has_gunshot_audio
  if s1 && (!s2 || d.pick_first_scenario) then "human"
  else animalLabelFromName d.img_name

/-- `generate_fused_detection(db, media_root)`: `none` when no coherent
image+audio scenario is available, otherwise the inserted fused detection
together with the emergency alert inserted iff escalation was applied.
Both scenarios carry `audio_class = 'gunshot'`. -/
def generate_fused_detection (d : FusedDraws) :
    Option (GenDetection × Option GenAlert) :=
  let s1 := d.has_human_images && d.has_gunshot_audio
  let s2 := d.has_animal_images && d.has_gunshot_audio
  if !s1 && !s2 then none
  else
    let visual_object := fusedVisualObject d
    let audio_class := "gunshot"
    match defaultEngine.fuse (some ⟨d.visual_conf, visual_object⟩)
        (some ⟨d.audio_conf, audio_class⟩) with
    | .error _ => none
    | .ok fused =>
      let doc : GenDetection :=
        { detection_type := "fused", detected_object := fused.detected_object
          confidence := fused.fusion_confidence
          alert_level := fused.alert_level }
      let alert : Option GenAlert :=
        if fused.escalation_applied then
          some { alert_type :=
                   if strContains fused.detected_object "poacher" then
                     "armed_person"
                   else "gunshot"
                 severity := fused.alert_level }
        else none
      some (doc, alert)

lemma animal_level_low_or_medium (i : Fin 3) :
    ["low", "low", "medium"].get i = "low" ∨
      ["low", "low", "medium"].get i = "medium" := by
  fin_cases i <;> simp

lemma check_escalation_rule_level (vo ac : String) (rule : EscalationRule)
    (h : LateFusionEngine.check_escalation vo ac = some rule) :
    rule.alert_level = "critical" ∨ rule.alert_level = "high" := by
  simp only [LateFusionEngine.check_escalation,
    LateFusionEngine.ESCALATION_RULES, List.lookup] at h
  repeat' split at h
  all_goals cases h
  all_goals simp

/-- **C5.** In a generation step, an emergency-alert record is written iff
either an escalation rule fired on the fused result, or a single-modality
detection was assigned alert level high or critical (the suspicious-human
and gunshot branches); a fused detection whose confidence-derived level is
high/critical with no escalation rule fired produces no alert (concretely:
the wildlife+gunshot scenario at confidences 0.95/0.95 yields a critical
fused detection and no alert), and medium/low detections never produce
one. -/
theorem generator_alert_iff (force : Bool) (d : GenDraws) (fd : FusedDraws)
    (doc : GenDetection) (al : Option GenAlert)
    (hfd : generate_fused_detection fd = some (doc, al)) :
    ((generate_detection_with_pymongo force d).2.isSome = true ↔
      (∃ dd, (generate_detection_with_pymongo force d).1 = some dd ∧
        (dd.alert_level = "high" ∨ dd.alert_level = "critical"))) ∧
    (al.isSome = true ↔
      (LateFusionEngine.check_escalation (fusedVisualObject fd)
        "gunshot").isSome = true) ∧
    (doc.alert_level ≠ "high" → doc.alert_level ≠ "critical" → al = none) ∧
    generate_fused_detection
        ⟨false, true, true, true, "IMG_001.jpg", 19/20, 19/20⟩ =
      some (⟨"fused", "wildlife", 19/20, "critical"⟩, none) := by
  have hmain :
      (match defaultEngine.fuse (some ⟨fd.visual_conf, fusedVisualObject fd⟩)
          (some ⟨fd.audio_conf, "gunshot"⟩) with
        | .error _ => (none : Option (GenDetection × Option GenAlert))
        | .ok fused =>
          some ({ detection_type := "fused"
                  detected_object := fused.detected_object
                  confidence := fused.fusion_confidence
                  alert_level := fused.alert_level },
                if fused.escalation_applied then
                  some { alert_type :=
                           if strContains fused.detected_object "poacher" then
                             "armed_person"
                           else "gunshot"
                         severity := fused.alert_level }
                else none)) = some (doc, al) := by
    unfold generate_fused_detection at hfd
    dsimp only at hfd
    split_ifs at hfd with havail
    exact hfd
  simp only [LateFusionEngine.fuse, Option.isSome_some, reduceCtorEq,
    and_false, and_true, true_and, and_self, if_true, ite_true, ite_false,
    not_false_eq_true, if_false, Option.some.injEq, Prod.mk.injEq] at hmain
  obtain ⟨hdoc, hal⟩ := hmain
  refine ⟨?_, ?_, ?_, ?_⟩
  · unfold generate_detection_with_pymongo
    dsimp only
    split_ifs with h1 h2 h3 h4 h5 <;> simp
    all_goals
      rcases animal_level_low_or_medium d.animal_level_idx with h | h <;>
        · rw [List.get_eq_getElem] at h
          simp [h]
  · subst hal
    cases hesc : LateFusionEngine.check_escalation (fusedVisualObject fd)
        "gunshot" <;> simp [hesc]
  · intro hh hc
    subst hal
    cases hesc : LateFusionEngine.check_escalation (fusedVisualObject fd)
        "gunshot" with
    | none => simp [hesc]
    | some rule =>
      exfalso
      have hlev : doc.alert_level = rule.alert_level := by
        rw [← hdoc]; simp [hesc]
      rcases check_escalation_rule_level _ _ _ hesc with h | h
      · exact hc (hlev.trans h)
      · exact hh (hlev.trans h)
  · with_unfolding_all rfl

/-- Witness for C5: the fused part applied at the concrete
wildlife+gunshot scenario, whose generated pair carries no alert. -/
theorem generator_alert_iff_witness :
    ((none : Option GenAlert).isSome = true ↔
      (LateFusionEngine.check_escalation
        (fusedVisualObject ⟨false, true, true, true, "IMG_001.jpg",
          19/20, 19/20⟩) "gunshot").isSome = true) :=
  (generator_alert_iff false
    ⟨"animal", true, true, true, true, "bear_1.jpg", 9/10, 0, 9/10, false,
      0, 0, false, 9/10, 8/10⟩
    ⟨false, true, true, true, "IMG_001.jpg", 19/20, 19/20⟩
    ⟨"fused", "wildlife", 19/20, "critical"⟩ none
    (by with_unfolding_all rfl)).2.1

end WildGuard
